import Mathlib

/-!
Verification development for the conversation session engine of the
MentalHealthAIApp front end (src/MentalHealthAIApp.tsx): the crisis-keyword
classifier, the message log, the outbound payload windowing, and the submit
handler with its success/failure paths.

Strings are modelled as lists of characters; JavaScript string operations
(trim, toLowerCase, includes, slice) are given explicit list-level
counterparts. Time stamps are abstract naturals supplied as parameters.
The asynchronous round trip is modelled by splitting the submit handler at
its single suspension point: `handleSendPre` is the synchronous prefix up to
and including the dispatch of the outbound request (returning `none` when the
handler returns before dispatching), and `handleSendResume` is the
continuation run once the transport call resolves, parameterised by an
abstract `FetchResult`.
-/

namespace MentalHealthAIApp

/-- Convert a string literal to the list-of-characters representation. -/
def str (s : String) : List Char := s.data

/-- Message roles: the closed set from the `Message` type in the source. -/
inductive Role where
  | system
  | assistant
  | user
deriving DecidableEq, Repr

/-- A turn of the message log: the `Message` type of the source
(`id`, `role`, `text`, `time`). -/
structure Message where
  id : Nat
  role : Role
  text : List Char
  time : Nat
deriving DecidableEq, Repr

/-- One entry of the serialized outbound `payload.messages` array. Existing
log entries are passed through as full `Message` objects, so their `id` and
`time` fields appear in the JSON (`id := some _`, `time := some _`); the
freshly concatenated candidate object carries only `role` and `text`
(`id := none`, `time := none`). -/
structure PayloadEntry where
  role : Role
  text : List Char
  id : Option Nat
  time : Option Nat
deriving DecidableEq, Repr

/-- The outbound request body: `messages`, `settings.tone`,
`metadata.userName`. -/
structure Payload where
  messages : List PayloadEntry
  tone : List Char
  userName : List Char
deriving DecidableEq, Repr

/-- The fixed crisis phrase list `CRISIS_KEYWORDS` from the source. -/
def CRISIS_KEYWORDS : List (List Char) :=
  [str "suicide", str "kill myself", str "end my life", str "want to die",
   str "hurt myself", str "harm myself", str "violent", str "no reason to live"]

/-- JavaScript `hay.includes(needle)`: substring test. -/
def includes (hay needle : List Char) : Bool :=
  decide (needle <:+: hay)

/-- `containsCrisis` from the source: empty text is not a crisis; otherwise
lower-case the text and test each keyword for substring containment. -/
def containsCrisis (text : List Char) : Bool :=
  if text.isEmpty then false
  else
    let lower := text.map Char.toLower
    CRISIS_KEYWORDS.any (fun kw => includes lower kw)

/-- JavaScript `String.prototype.trim`: strip whitespace from both ends. -/
def trim (l : List Char) : List Char :=
  ((l.dropWhile Char.isWhitespace).reverse.dropWhile Char.isWhitespace).reverse

/-- The component state: the `useState` hooks plus the `messageId` ref. -/
structure AppState where
  messages : List Message
  input : List Char
  loading : Bool
  showCrisisModal : Bool
  userName : List Char
  consentChecked : Bool
  tone : List Char
  error : Option (List Char)
  messageId : Nat
deriving DecidableEq, Repr

/-- Outcome of the `fetch` round trip: `success reply flagged` stands for an
`ok` response whose JSON body parsed, with `reply` absent (`none`) or present
and `flagged` coerced to a boolean; `failure` stands for a network error, a
non-ok status, or a body whose parsing threw. -/
inductive FetchResult where
  | success (reply : Option (List Char)) (flagged : Bool)
  | failure
deriving DecidableEq, Repr

/-- Text of the seed `system` turn (id 0). -/
def systemSeedText : List Char :=
  str "You are a compassionate, nonjudgmental mental health assistant. Provide psychoeducation, empathic reflections, coping strategies, and encourage users to seek professional help when appropriate. If the user describes imminent danger or self-harm, immediately display crisis resources and encourage contacting local emergency services."

/-- Text of the seed `assistant` greeting turn (id 1). -/
def assistantSeedText : List Char :=
  str "Hi — I\x27m here to listen and to help you understand what\x27s going on. You can share whatever you feel comfortable with. If this is an emergency or you\x27re thinking of harming yourself, please tell me and I\x27ll help you find immediate support."

/-- The two-turn seed the `messages` state is initialized with, stamped with
the two creation times. -/
def initialMessages (t0 t1 : Nat) : List Message :=
  [⟨0, Role.system, systemSeedText, t0⟩, ⟨1, Role.assistant, assistantSeedText, t1⟩]

/-- The initial component state: seed log, empty input, nothing loading, no
modal, no name, consent unchecked, compassionate tone, no error, and the
`messageId` ref starting at 2. -/
def initialState (t0 t1 : Nat) : AppState :=
  { messages := initialMessages t0 t1
    input := []
    loading := false
    showCrisisModal := false
    userName := []
    consentChecked := false
    tone := str "compassionate"
    error := none
    messageId := 2 }

/-- `addMessage` from the source: allocate `messageId.current`, increment the
ref, append the new turn. -/
def addMessage (s : AppState) (role : Role) (text : List Char) (now : Nat) : AppState :=
  { s with
    messages := s.messages ++ [⟨s.messageId, role, text, now⟩]
    messageId := s.messageId + 1 }

/-- The validation-failure message set when consent is unchecked. -/
def consentErrorText : List Char :=
  str "Please confirm that you consent to have this conversation processed by the assistant."

/-- The `lastError` message set on the catch path. -/
def fetchErrorText : List Char :=
  str "Failed to reach the assistant. Try again later."

/-- The fallback assistant text used when `data.reply` is missing or empty. -/
def fallbackReplyText : List Char :=
  str "Sorry — I couldn\x27t generate a response."

/-- The assistant apology text appended on the catch path. -/
def failureReplyText : List Char :=
  str "I\x27m having trouble right now. Please try again later."

/-- JavaScript `data.reply || fallback`: the fallback replaces a missing
(`undefined`) or empty (falsy) reply. -/
def replyOrFallback : Option (List Char) → List Char
  | none => fallbackReplyText
  | some r => if r.isEmpty then fallbackReplyText else r

/-- The serialization of one existing log `Message` inside the payload: the
whole object, `id` and `time` included. -/
def entryOfMessage (m : Message) : PayloadEntry :=
  ⟨m.role, m.text, some m.id, some m.time⟩

/-- The bare candidate object `⟨role := user, text := userText⟩` concatenated
into the payload. -/
def candidateEntry (userText : List Char) : PayloadEntry :=
  ⟨Role.user, userText, none, none⟩

/-- JavaScript `l.slice(-n)`: the at most `n` most recent elements. -/
def sliceLast (n : Nat) (l : List α) : List α :=
  l.drop (l.length - n)

/-- The payload built in `handleSend`:
`messages.concat([⟨role := user, text := userText⟩]).slice(-20)` together with
`settings.tone` and `metadata.userName`. `msgs` is the `messages` state the
handler closed over, i.e. the log before the user turn was appended. -/
def mkPayload (msgs : List Message) (tone userName userText : List Char) : Payload :=
  { messages := sliceLast 20 (msgs.map entryOfMessage ++ [candidateEntry userText])
    tone := tone
    userName := userName }

/-- The synchronous prefix of `handleSend`, up to the `fetch` call: the empty
and consent validations, clearing then possibly setting `error`, appending the
user turn, clearing the input, the local crisis check opening the modal, and
setting `loading`. Returns the dispatched payload, or `none` when the handler
returned before dispatching a request. -/
def handleSendPre (s : AppState) (tUser : Nat) : AppState × Option Payload :=
  if (trim s.input).isEmpty then (s, none)
  else
    let s1 : AppState := { s with error := none }
    if !s1.consentChecked then ({ s1 with error := some consentErrorText }, none)
    else
      let userText := trim s.input
      let s2 := addMessage s1 Role.user userText tUser
      let s3 : AppState := { s2 with input := [] }
      let s4 : AppState :=
        if containsCrisis userText then { s3 with showCrisisModal := true } else s3
      let s5 : AppState := { s4 with loading := true }
      (s5, some (mkPayload s.messages s.tone s.userName userText))

/-- The continuation of `handleSend` after the round trip resolves. `s0show`
is the `showCrisisModal` value the handler closed over at invocation time
(the stale closure value tested on line 107 of the source). The `finally`
clause clears `loading` on both paths. -/
def handleSendResume (s : AppState) (s0show : Bool) (r : FetchResult) (tAsst : Nat) :
    AppState :=
  match r with
  | FetchResult.success reply flagged =>
      let s1 : AppState :=
        if flagged && !s0show then { s with showCrisisModal := true } else s
      let s2 := addMessage s1 Role.assistant (replyOrFallback reply) tAsst
      { s2 with loading := false }
  | FetchResult.failure =>
      let s1 : AppState := { s with error := some fetchErrorText }
      let s2 := addMessage s1 Role.assistant failureReplyText tAsst
      { s2 with loading := false }

/-- `handleSend` end to end: the synchronous prefix, then — when a request was
dispatched — the resume continuation applied to the transport outcome `r`. -/
def handleSend (s : AppState) (r : FetchResult) (tUser tAsst : Nat) : AppState :=
  match handleSendPre s tUser with
  | (s1, none) => s1
  | (s1, some _) => handleSendResume s1 s.showCrisisModal r tAsst

/-- A keyboard event as seen by `handleKeyDown`. -/
structure KeyEvent where
  key : List Char
  metaKey : Bool
  ctrlKey : Bool
deriving DecidableEq, Repr

/-- The guard of `handleKeyDown`: `e.key === "Enter" && (e.metaKey || e.ctrlKey)`.
Note it does not consult `loading`. -/
def keyTriggersSend (e : KeyEvent) : Bool :=
  (e.key == str "Enter") && (e.metaKey || e.ctrlKey)

/-- `handleKeyDown` from the source: invoke `handleSend` whenever the key
guard passes. -/
def handleKeyDown (s : AppState) (e : KeyEvent) (r : FetchResult) (tUser tAsst : Nat) :
    AppState :=
  if keyTriggersSend e then handleSend s r tUser tAsst else s

/-- The `disabled={loading}` attribute of the Send button. -/
def sendButtonDisabled (s : AppState) : Bool :=
  s.loading

/-- The Clear button handler from the source: `onClick={() => setInput('')}` —
it clears the input buffer only. -/
def clearClick (s : AppState) : AppState :=
  { s with input := [] }

/-- The assistant text appended for a given transport outcome: the reply (or
the fixed fallback when missing/empty) on success, the apology on failure. -/
def assistantReplyText : FetchResult → List Char
  | FetchResult.success reply _ => replyOrFallback reply
  | FetchResult.failure => failureReplyText

/-- The state reached by the synchronous part of a validated submit, at the
moment the request is dispatched: error cleared, user turn appended with the
next id, input cleared, crisis modal opened when the classifier fires, and
loading set. -/
def postValidState (s : AppState) (tUser : Nat) : AppState :=
  { s with
    error := none
    messages := s.messages ++ [⟨s.messageId, Role.user, trim s.input, tUser⟩]
    messageId := s.messageId + 1
    input := []
    showCrisisModal := s.showCrisisModal || containsCrisis (trim s.input)
    loading := true }

/-- Concrete session state about to submit the crisis text
"I want to end my life" with consent granted. -/
def crisisSubmitState : AppState :=
  { messages := []
    input := str "I want to end my life"
    loading := false
    showCrisisModal := false
    userName := []
    consentChecked := true
    tone := str "compassionate"
    error := none
    messageId := 2 }

/-- Concrete session state about to submit the benign text
" I feel anxious today " (with surrounding whitespace) with consent granted. -/
def anxiousSubmitState : AppState :=
  { messages := []
    input := str " I feel anxious today "
    loading := false
    showCrisisModal := false
    userName := []
    consentChecked := true
    tone := str "compassionate"
    error := none
    messageId := 2 }

/-- The initial session state with consent granted and the input still empty. -/
def emptySubmitState : AppState :=
  { initialState 0 0 with consentChecked := true }

/-- Concrete session state with non-empty input but consent not granted. -/
def noConsentState : AppState :=
  { messages := []
    input := str "hello"
    loading := false
    showCrisisModal := false
    userName := []
    consentChecked := false
    tone := str "compassionate"
    error := none
    messageId := 2 }

/-- Concrete session state whose input is all whitespace, carrying an error
message left over from a previous failed attempt. -/
def staleErrorState : AppState :=
  { messages := []
    input := str "   "
    loading := false
    showCrisisModal := false
    userName := []
    consentChecked := true
    tone := str "compassionate"
    error := some fetchErrorText
    messageId := 2 }

/-- Concrete session state with a round trip already in flight
(`loading = true`) and a fresh non-empty input with consent granted. -/
def inFlightState : AppState :=
  { messages := []
    input := str "hi"
    loading := true
    showCrisisModal := false
    userName := []
    consentChecked := true
    tone := str "compassionate"
    error := none
    messageId := 4 }

/-- A Ctrl+Enter keydown event. -/
def ctrlEnterEvent : KeyEvent :=
  { key := str "Enter", metaKey := false, ctrlKey := true }

/-- Concrete session state after one completed exchange: the two seed turns
plus a user turn and an assistant turn, with the id counter at 4. -/
def fourTurnState : AppState :=
  { initialState 0 0 with
    messages := initialMessages 0 0 ++
      [⟨2, Role.user, str "hi", 2⟩, ⟨3, Role.assistant, str "hello", 3⟩]
    messageId := 4 }

/-- Helper: a submit whose trimmed input is empty returns before any state
change or dispatch. -/
theorem handleSend_empty_noop (s : AppState) (r : FetchResult) (tU tA : Nat)
    (h : (trim s.input).isEmpty = true) :
    handleSend s r tU tA = s ∧ (handleSendPre s tU).2 = none := by
  have hp : handleSendPre s tU = (s, none) := by
    unfold handleSendPre
    simp [h]
  constructor
  · unfold handleSend
    rw [hp]
  · rw [hp]

/-- Helper: the synchronous prefix of a validated submit reaches
`postValidState` and dispatches the payload built from the closed-over log. -/
theorem handleSendPre_valid (s : AppState) (tU : Nat)
    (hne : (trim s.input).isEmpty = false) (hc : s.consentChecked = true) :
    handleSendPre s tU =
      (postValidState s tU,
       some (mkPayload s.messages s.tone s.userName (trim s.input))) := by
  unfold handleSendPre postValidState addMessage
  cases hcr : containsCrisis (trim s.input) <;>
    simp [hne, hc, hcr]

/-- Helper: a validated submit is the resume continuation applied at
`postValidState`, with the stale closure value of the modal flag. -/
theorem handleSend_valid (s : AppState) (r : FetchResult) (tU tA : Nat)
    (hne : (trim s.input).isEmpty = false) (hc : s.consentChecked = true) :
    handleSend s r tU tA = handleSendResume (postValidState s tU) s.showCrisisModal r tA := by
  unfold handleSend
  rw [handleSendPre_valid s tU hne hc]

/-- Helper: the resume continuation appends exactly one assistant turn with
the outcome-determined text and the next id. -/
theorem handleSendResume_messages (s : AppState) (s0show : Bool) (r : FetchResult) (tA : Nat) :
    (handleSendResume s s0show r tA).messages =
      s.messages ++ [⟨s.messageId, Role.assistant, assistantReplyText r, tA⟩] := by
  cases r with
  | success reply flagged =>
      unfold handleSendResume addMessage assistantReplyText
      cases hf : (flagged && !s0show) <;> simp [hf]
  | failure =>
      unfold handleSendResume addMessage assistantReplyText
      simp

/-- Helper: the `finally` clause leaves `loading = false` on both paths. -/
theorem handleSendResume_loading (s : AppState) (s0show : Bool) (r : FetchResult) (tA : Nat) :
    (handleSendResume s s0show r tA).loading = false := by
  cases r with
  | success reply flagged =>
      unfold handleSendResume addMessage
      cases hf : (flagged && !s0show) <;> simp [hf]
  | failure =>
      unfold handleSendResume addMessage
      simp

/-- Helper: the resume continuation never turns off an already-open crisis
modal. -/
theorem handleSendResume_modal (s : AppState) (s0show : Bool) (r : FetchResult) (tA : Nat)
    (h : s.showCrisisModal = true) :
    (handleSendResume s s0show r tA).showCrisisModal = true := by
  cases r with
  | success reply flagged =>
      unfold handleSendResume addMessage
      cases hf : (flagged && !s0show) <;> simp [hf, h]
  | failure =>
      unfold handleSendResume addMessage
      simp [h]

/-- C1: for every submit whose trimmed text passes validation and is
classified as crisis text by the local classifier, the crisis flag
(`showCrisisModal`) is already true in the state at which the outbound
request is dispatched, a request is indeed dispatched, and the flag is still
true in the final state for every transport outcome, success or failure. -/
theorem crisisFlag_set_before_dispatch (s : AppState) (r : FetchResult) (tU tA : Nat)
    (hne : (trim s.input).isEmpty = false) (hc : s.consentChecked = true)
    (hcr : containsCrisis (trim s.input) = true) :
    (handleSendPre s tU).1.showCrisisModal = true ∧
    (handleSendPre s tU).2.isSome = true ∧
    (handleSend s r tU tA).showCrisisModal = true := by
  rw [handleSendPre_valid s tU hne hc, handleSend_valid s r tU tA hne hc]
  refine ⟨?_, rfl, ?_⟩
  · simp [postValidState, hcr]
  · exact handleSendResume_modal _ _ _ _ (by simp [postValidState, hcr])

/-- C1 witness: submitting "I want to end my life" with consent granted
opens the crisis modal before dispatch and it stays open even when the
transport call fails. -/
theorem crisisFlag_set_before_dispatch_witness :
    (trim crisisSubmitState.input).isEmpty = false ∧
    crisisSubmitState.consentChecked = true ∧
    containsCrisis (trim crisisSubmitState.input) = true ∧
    ((handleSendPre crisisSubmitState 3).1.showCrisisModal = true ∧
     (handleSendPre crisisSubmitState 3).2.isSome = true ∧
     (handleSend crisisSubmitState FetchResult.failure 3 4).showCrisisModal = true) :=
  ⟨by decide, by decide, by decide,
   crisisFlag_set_before_dispatch crisisSubmitState FetchResult.failure 3 4
     (by decide) (by decide) (by decide)⟩

/-- C2: `containsCrisis` returns true exactly on texts containing some fixed
crisis phrase as a case-insensitive substring, and returns false on the empty
string. -/
theorem containsCrisis_spec :
    (∀ t : List Char,
        containsCrisis t = true ↔
          ∃ kw ∈ CRISIS_KEYWORDS, kw <:+: t.map Char.toLower) ∧
    containsCrisis [] = false := by
  constructor
  · intro t
    cases t with
    | nil =>
        constructor
        · intro h
          exact absurd h (by decide)
        · rintro ⟨kw, hmem, hinf⟩
          have hkw : kw = [] := List.eq_nil_of_infix_nil hinf
          subst hkw
          exact absurd hmem (by decide)
    | cons a l =>
        unfold containsCrisis includes
        simp [List.any_eq_true, decide_eq_true_iff]
  · decide

/-- C3 counterexample: a submit rejected for empty trimmed input (consent
granted) ends with `lastError` still unset — the claim that every
validation-rejected submit sets `lastError` is false on the code, which
returns before touching the error state. -/
theorem emptySubmit_leaves_error_unset :
    (trim emptySubmitState.input).isEmpty = true ∧
    emptySubmitState.consentChecked = true ∧
    (handleSend emptySubmitState FetchResult.failure 0 0).error = none ∧
    (handleSendPre emptySubmitState 0).2 = none := by
  refine ⟨by decide, by decide, ?_, by decide⟩
  decide

/-- C3 amended: a submit rejected for missing consent sets `lastError` to the
consent message, appends no turn, leaves `loading` untouched and dispatches
no request; a submit rejected for empty trimmed input returns with no state
change at all (in particular `lastError` is left as it was) and dispatches no
request. -/
theorem rejected_submit_no_side_effects (s : AppState) (r : FetchResult) (tU tA : Nat) :
    ((trim s.input).isEmpty = true →
        handleSend s r tU tA = s ∧ (handleSendPre s tU).2 = none) ∧
    ((trim s.input).isEmpty = false → s.consentChecked = false →
        (handleSend s r tU tA).error = some consentErrorText ∧
        (handleSend s r tU tA).messages = s.messages ∧
        (handleSend s r tU tA).loading = s.loading ∧
        (handleSendPre s tU).2 = none) := by
  constructor
  · intro h
    exact handleSend_empty_noop s r tU tA h
  · intro hne hcon
    have hp : handleSendPre s tU = ({ s with error := some consentErrorText }, none) := by
      unfold handleSendPre
      simp [hne, hcon]
    have hs : handleSend s r tU tA = { s with error := some consentErrorText } := by
      unfold handleSend
      rw [hp]
    rw [hs, hp]
    exact ⟨rfl, rfl, rfl, rfl⟩

/-- C3 witness: a submit of "hello" with consent not granted sets the consent
error, leaves the log and `loading` untouched and dispatches nothing. -/
theorem rejected_submit_no_side_effects_witness :
    (trim noConsentState.input).isEmpty = false ∧
    noConsentState.consentChecked = false ∧
    ((handleSend noConsentState FetchResult.failure 0 0).error = some consentErrorText ∧
     (handleSend noConsentState FetchResult.failure 0 0).messages = noConsentState.messages ∧
     (handleSend noConsentState FetchResult.failure 0 0).loading = noConsentState.loading ∧
     (handleSendPre noConsentState 0).2 = none) :=
  ⟨by decide, by decide,
   (rejected_submit_no_side_effects noConsentState FetchResult.failure 0 0).2
     (by decide) (by decide)⟩

/-- C4: every validated submit grows the log by exactly two turns — a user
turn carrying the trimmed input, then an assistant turn whose text is the
reply (or the fixed fallback when the reply is missing or empty) on success
and the fixed apology on failure. -/
theorem validated_submit_appends_two_turns (s : AppState) (r : FetchResult) (tU tA : Nat)
    (hne : (trim s.input).isEmpty = false) (hc : s.consentChecked = true) :
    (handleSend s r tU tA).messages =
      s.messages ++
        [⟨s.messageId, Role.user, trim s.input, tU⟩,
         ⟨s.messageId + 1, Role.assistant, assistantReplyText r, tA⟩] ∧
    (handleSend s r tU tA).messages.length = s.messages.length + 2 := by
  have h1 := handleSend_valid s r tU tA hne hc
  rw [h1, handleSendResume_messages]
  constructor
  · simp [postValidState]
  · simp [postValidState]

/-- C4 witness: submitting " I feel anxious today " (consent granted) against
a transport success with an empty reply appends the trimmed user turn and the
fixed fallback assistant turn. -/
theorem validated_submit_appends_two_turns_witness :
    (trim anxiousSubmitState.input).isEmpty = false ∧
    anxiousSubmitState.consentChecked = true ∧
    ((handleSend anxiousSubmitState (FetchResult.success (some []) false) 5 6).messages =
      anxiousSubmitState.messages ++
        [⟨anxiousSubmitState.messageId, Role.user, trim anxiousSubmitState.input, 5⟩,
         ⟨anxiousSubmitState.messageId + 1, Role.assistant,
          assistantReplyText (FetchResult.success (some []) false), 6⟩] ∧
     (handleSend anxiousSubmitState (FetchResult.success (some []) false) 5 6).messages.length =
       anxiousSubmitState.messages.length + 2) :=
  ⟨by decide, by decide,
   validated_submit_appends_two_turns anxiousSubmitState
     (FetchResult.success (some []) false) 5 6 (by decide) (by decide)⟩

/-- C5: every validated submit whose transport call fails ends with
`lastError` set to the fixed user-facing message, an assistant turn carrying
the fixed apology text appended after the user turn, and `loading = false`;
the fault is absorbed (the handler is a total function into states, never a
propagated exception). -/
theorem transport_failure_recovered (s : AppState) (tU tA : Nat)
    (hne : (trim s.input).isEmpty = false) (hc : s.consentChecked = true) :
    (handleSend s FetchResult.failure tU tA).error = some fetchErrorText ∧
    (handleSend s FetchResult.failure tU tA).messages =
      s.messages ++
        [⟨s.messageId, Role.user, trim s.input, tU⟩,
         ⟨s.messageId + 1, Role.assistant, failureReplyText, tA⟩] ∧
    (handleSend s FetchResult.failure tU tA).loading = false := by
  rw [handleSend_valid s FetchResult.failure tU tA hne hc]
  refine ⟨?_, ?_, handleSendResume_loading _ _ _ _⟩
  · unfold handleSendResume addMessage
    simp
  · rw [handleSendResume_messages]
    simp [postValidState, assistantReplyText]

/-- C5 witness: submitting " I feel anxious today " (consent granted) against
a failing transport sets the fixed error, appends the apology turn and ends
not loading. -/
theorem transport_failure_recovered_witness :
    (trim anxiousSubmitState.input).isEmpty = false ∧
    anxiousSubmitState.consentChecked = true ∧
    ((handleSend anxiousSubmitState FetchResult.failure 5 6).error = some fetchErrorText ∧
     (handleSend anxiousSubmitState FetchResult.failure 5 6).messages =
       anxiousSubmitState.messages ++
         [⟨anxiousSubmitState.messageId, Role.user, trim anxiousSubmitState.input, 5⟩,
          ⟨anxiousSubmitState.messageId + 1, Role.assistant, failureReplyText, 6⟩] ∧
     (handleSend anxiousSubmitState FetchResult.failure 5 6).loading = false) :=
  ⟨by decide, by decide,
   transport_failure_recovered anxiousSubmitState 5 6 (by decide) (by decide)⟩

/-- C6: for every log state and candidate user text, the built payload holds
at most 20 entries, its last entry is the candidate user entry, and the
candidate entry occurs exactly once: the payload splits as a prefix (drawn
from the log, hence carrying `some` ids) followed by the single candidate
entry, which cannot occur in that prefix. -/
theorem payload_window_bounded (msgs : List Message) (tone userName userText : List Char) :
    (mkPayload msgs tone userName userText).messages.length ≤ 20 ∧
    (mkPayload msgs tone userName userText).messages.getLast? =
      some (candidateEntry userText) ∧
    ∃ pre, (mkPayload msgs tone userName userText).messages =
        pre ++ [candidateEntry userText] ∧ candidateEntry userText ∉ pre := by
  have hlen : (msgs.map entryOfMessage ++ [candidateEntry userText]).length
      = (msgs.map entryOfMessage).length + 1 := by simp
  have hk : (msgs.map entryOfMessage ++ [candidateEntry userText]).length - 20
      ≤ (msgs.map entryOfMessage).length := by omega
  have hms : (mkPayload msgs tone userName userText).messages =
      (msgs.map entryOfMessage).drop
        ((msgs.map entryOfMessage ++ [candidateEntry userText]).length - 20)
      ++ [candidateEntry userText] := by
    show sliceLast 20 (msgs.map entryOfMessage ++ [candidateEntry userText]) = _
    unfold sliceLast
    exact List.drop_append_of_le_length hk
  refine ⟨?_, ?_, _, hms, ?_⟩
  · rw [hms]
    simp only [List.length_append, List.length_drop, List.length_cons, List.length_nil]
    omega
  · rw [hms]
    exact List.getLast?_concat _
  · intro hmem
    have hmem' := List.mem_of_mem_drop hmem
    rcases List.mem_map.mp hmem' with ⟨m, _, hm⟩
    have hid := congrArg PayloadEntry.id hm
    simp [entryOfMessage, candidateEntry] at hid

/-- C7: evaluation at the failing input. Building the payload over the seed
log (ids 0 and 1, stamped at times 5 and 7) with candidate text "hi" yields
entries whose serialized forms retain the `id` and `time` fields of the log
messages (`some` values), contradicting the claim that every entry carries
only role and text; the tone and user name metadata are attached as claimed. -/
theorem payload_entries_retain_id_and_time :
    ((mkPayload (initialMessages 5 7) (str "compassionate") [] (str "hi")).messages.map
        PayloadEntry.id) = [some 0, some 1, none] ∧
    ((mkPayload (initialMessages 5 7) (str "compassionate") [] (str "hi")).messages.map
        PayloadEntry.time) = [some 5, some 7, none] ∧
    (mkPayload (initialMessages 5 7) (str "compassionate") [] (str "hi")).tone =
      str "compassionate" ∧
    (mkPayload (initialMessages 5 7) (str "compassionate") [] (str "hi")).userName = [] := by
  refine ⟨?_, ?_, rfl, rfl⟩ <;> rfl

/-- C8: evaluation at the failing input. With a round trip already in flight
(`loading = true`), the Send button is disabled, but a Ctrl+Enter keydown
passes the key guard — which never consults `loading` — so `handleKeyDown`
runs `handleSend`, whose synchronous prefix dispatches a second outbound
request while the first is pending. -/
theorem keydown_dispatches_while_pending :
    sendButtonDisabled inFlightState = true ∧
    keyTriggersSend ctrlEnterEvent = true ∧
    (handleSendPre inFlightState 0).2.isSome = true ∧
    handleKeyDown inFlightState ctrlEnterEvent FetchResult.failure 0 1 =
      handleSend inFlightState FetchResult.failure 0 1 := by
  refine ⟨by decide, by decide, by decide, ?_⟩
  decide

/-- C9 counterexample: applying the Clear handler to a four-turn session
leaves the log at length 4 and the id counter at 4 — it does not replace the
log with the two-turn seed, nor restart the counter at 2, refuting the claim
as stated. -/
theorem clear_does_not_reset_log :
    (clearClick fourTurnState).messages.length = 4 ∧
    (clearClick fourTurnState).messageId = 4 ∧
    ¬((clearClick fourTurnState).messages.length = 2 ∧
      (clearClick fourTurnState).messageId = 2) := by
  refine ⟨?_, rfl, ?_⟩
  · decide
  · intro h
    exact absurd h.2 (by decide)

/-- C9 amended: the Clear operation only empties the input buffer, leaving
the message log and the id counter (and all other state) unchanged; the
two-turn seed — roles `[system, assistant]`, ids 0 and 1, next id 2 — is
established at session initialization, not by Clear. -/
theorem clearClick_frame_and_initial_seed (s : AppState) (t0 t1 : Nat) :
    clearClick s = { s with input := [] } ∧
    (initialState t0 t1).messages.length = 2 ∧
    (initialState t0 t1).messages.map Message.role = [Role.system, Role.assistant] ∧
    (initialState t0 t1).messages.map Message.id = [0, 1] ∧
    (initialState t0 t1).messageId = 2 :=
  ⟨rfl, rfl, rfl, rfl, rfl⟩

/-- C10: a submit whose current input trims to the empty string returns
immediately with no state change at all — the final state equals the initial
one (so no turn is appended, `loading` is untouched and `lastError` is
neither set nor cleared) and no request is dispatched. -/
theorem empty_input_submit_is_noop (s : AppState) (r : FetchResult) (tU tA : Nat)
    (h : (trim s.input).isEmpty = true) :
    handleSend s r tU tA = s ∧ (handleSendPre s tU).2 = none :=
  handleSend_empty_noop s r tU tA h

/-- C10 witness: a submit of all-whitespace input from a state still carrying
the error of a previous failed attempt leaves that state — the stale error
included — entirely unchanged. -/
theorem empty_input_submit_is_noop_witness :
    (trim staleErrorState.input).isEmpty = true ∧
    (handleSend staleErrorState FetchResult.failure 0 0 = staleErrorState ∧
     (handleSendPre staleErrorState 0).2 = none) :=
  ⟨by decide,
   empty_input_submit_is_noop staleErrorState FetchResult.failure 0 0 (by decide)⟩

end MentalHealthAIApp
